import Mathlib

/-!
Verification development for the hookah-catering order bot (`src/main.py`).

The program is an aiogram finite-state-machine chat bot.  We shallowly embed
its per-session state and its five handlers as pure Lean functions:

* session state = the aiogram FSM state of the `Conversation` states group
  plus the per-user data dict (keys `lang`, `history`, `order_details`);
* `state.get_data()` returns a deep copy of the stored dict (aiogram's
  `MemoryStorage.get_data` deep-copies), so local mutation of the `history`
  list in a handler is only persisted by an explicit `state.update_data(...)`;
* `state.finish()` clears both the FSM state and the data dict;
* outbound transport calls (send / edit / delete message, callback answers,
  the forward to `ADMIN_ID`) are recorded as a list of effects;
* the Groq completion call is an external collaborator: each inbound message
  event carries the adapter's outcome (a message with optional tool calls,
  a timeout, or another raised error);
* `json.loads(tool_call.function.arguments)` is external (Python stdlib), so a
  tool call carries its parse result directly: `none` models a raised
  `JSONDecodeError`, `some j` the parsed value;
* the i18n `gettext` lookup is an external collaborator and is passed in as a
  function `tr : String → String` from message keys to localized text.
-/

inductive Role where
  | system
  | user
  | assistant
deriving DecidableEq

structure Turn where
  role : Role
  content : String
deriving DecidableEq

/-- A JSON value, the possible result of `json.loads` on a tool call's
argument payload.  Numbers are modelled as integers (no claim computes with
numeric field values). -/
inductive Json where
  | str (s : String)
  | num (n : Int)
  | bool (b : Bool)
  | null
  | arr (xs : List Json)
  | obj (fields : List (String × Json))

/-- The aiogram FSM states of the `Conversation` states group; `none` is the
default (no state set / after `state.finish()`). -/
inductive Conversation where
  | none
  | waiting_for_language
  | active
  | confirmation
deriving DecidableEq

/-- The per-user FSM data dict: keys `lang`, `history`, `order_details`.
A missing key is `Option.none` (Python `dict.get` returning `None`). -/
structure SessionData where
  lang : Option String
  history : Option (List Turn)
  order_details : Option Json

/-- One user's session: FSM state plus data dict. -/
structure Session where
  fsm : Conversation
  data : SessionData

/-- A Telegram user as the handlers see it; `username` is `none` for Python
`None` (an empty username string is falsy in Python, handled in `user_link`). -/
structure TgUser where
  id : Nat
  username : Option String

/-- `tool_call.function`: the function name together with the result of
`json.loads` on its `arguments` string (`none` = the parse raised). -/
structure ToolFunction where
  name : String
  arguments : Option Json

structure ToolCall where
  function : ToolFunction

/-- `response.choices[0].message` of the completion call. -/
structure CompletionMessage where
  content : String
  tool_calls : List ToolCall

/-- Outcome of one `client.chat.completions.create` call: a returned message,
an `asyncio.TimeoutError`, or any other raised exception. -/
inductive CompletionOutcome where
  | ok (message : CompletionMessage)
  | timeout
  | error

/-- Observable outbound effects of a handler, in program order. -/
inductive Effect where
  | send (text : String)
  | editText (msgId : Nat) (text : String)
  | delMsg (msgId : Nat)
  | clearMarkup (msgId : Nat)
  | cbAnswer (text : Option String)
  | sendAdmin (text : String)
  | completionCall
deriving DecidableEq

mutual

/-- Python `repr(...)` of a decoded JSON value, as interpolated by the
f-strings building the summaries for container values. -/
def pyRepr : Json → String
  | .str s => "\x27" ++ s ++ "\x27"
  | .num n => toString n
  | .bool b => if b then "True" else "False"
  | .null => "None"
  | .arr xs => "[" ++ pyReprList xs ++ "]"
  | .obj fs => "\x7b" ++ pyReprFields fs ++ "\x7d"

/-- Python `", ".join` of element reprs inside a list repr. -/
def pyReprList : List Json → String
  | [] => ""
  | [x] => pyRepr x
  | x :: xs => pyRepr x ++ ", " ++ pyReprList xs

/-- Python `", ".join` of `'key': value` pairs inside a dict repr. -/
def pyReprFields : List (String × Json) → String
  | [] => ""
  | [(k, v)] => "\x27" ++ k ++ "\x27: " ++ pyRepr v
  | (k, v) :: fs => "\x27" ++ k ++ "\x27: " ++ pyRepr v ++ ", " ++ pyReprFields fs
end

/-- Python `str(d.get(key))` as rendered inside an f-string. -/
def pyStr : Option Json → String
  | Option.none => "None"
  | some (.str s) => s
  | some (.num n) => toString n
  | some (.bool b) => if b then "True" else "False"
  | some .null => "None"
  | some j => pyRepr j

/-- Python `dict.get` on a decoded JSON object. -/
def jGet (fields : List (String × Json)) (key : String) : Option Json :=
  (fields.find? (fun kv => kv.1 == key)).map (fun kv => kv.2)

/-- The `lang_map` local of `get_system_prompt`. -/
def lang_map : List (String × String) :=
  [("ru", "русском"), ("en", "английском"), ("pl", "польском")]

/-- The system prompt f-string up to the `{language_name}` interpolation. -/
def system_prompt_head : String :=
  "\nТы — \"Smoky\", дружелюбный и профессиональный AI-ассистент сервиса кальянного кейтеринга.\nТвоя главная задача — в естественном диалоге помочь пользователю оформить заказ.\n\nТебе НЕОБХОДИМО собрать следующую информацию:\n1. arrival_time: Время и дата прибытия.\n2. duration_hours: Продолжительность мероприятия в часах.\n3. hookah_masters_count: Количество кальянных мастеров.\n4. hookahs_count: Количество кальянов.\n5. location: Полный адрес мероприятия.\n6. phone_number: Контактный номер телефона пользователя.\n\nВеди диалог естественно. Не задавай все вопросы сразу.\n\nКРАЙНЕ ВАЖНО: Как только ты соберешь ВСЮ необходимую информацию, ты ДОЛЖЕН вызвать функцию `create_hookah_order`.\n\nСАМОЕ ГЛАВНОЕ ПРАВИЛО: Ты ОБЯЗАН общаться с пользователем СТРОГО на "

/-- The system prompt f-string after the `{language_name}` interpolation. -/
def system_prompt_tail : String :=
  " языке.\nНе используй ни одного слова из других языков. Это твое самое важное правило.\n"

/-- `get_system_prompt` from `src/main.py`: the system prompt f-string with
the language name interpolated (`lang_map.get(lang_code, 'русском')`). -/
def get_system_prompt (lang_code : String) : String :=
  let language_name := (((lang_map.find? (fun p => p.1 == lang_code)).map (fun p => p.2)).getD "русском")
  system_prompt_head ++ language_name ++ system_prompt_tail

/-- The `lang_reminders` dict of `handle_conversation`. -/
def lang_reminders : List (String × String) :=
  [("ru", "(Напоминание: отвечай только на русском языке)"),
   ("en", "(Reminder: reply in English only)"),
   ("pl", "(Przypomnienie: odpowiadaj tylko po polsku)")]

/-- The `user_link` f-string: `@username` when the username is truthy,
otherwise the `tg://user?id=` deep link. -/
def user_link (u : TgUser) : String :=
  match u.username with
  | some un => if un.isEmpty then "tg://user?id=" ++ toString u.id else "@" ++ un
  | Option.none => "tg://user?id=" ++ toString u.id

/-- `cmd_start`: `state.finish()` (clears state and data), sends the language
keyboard, sets `Conversation.waiting_for_language`. -/
def cmd_start (_s : Session) : Session × List Effect :=
  (⟨Conversation.waiting_for_language, ⟨Option.none, Option.none, Option.none⟩⟩,
   [Effect.send "Please choose your language / Пожалуйста, выберите язык / Proszę wybrać język:"])

/-- Python `str.split(sep)` on the character list of a string: splits at
every occurrence of the separator, keeping empty pieces. -/
def splitChar (c : Char) : List Char → List (List Char)
  | [] => [[]]
  | ch :: rest =>
    match splitChar c rest with
    | [] => if ch = c then [[], []] else [[ch]]
    | g :: gs => if ch = c then [] :: g :: gs else (ch :: g) :: gs

/-- `callback.data.split('_')[1]` for a callback matching `lang_*`. -/
def langCodeOf (cbData : String) : String :=
  (((splitChar '_' cbData.data).map String.mk).getD 1 "")

/-- Python `str.startswith(pre)`. -/
def pyStartswith (s pre : String) : Bool := pre.data.isPrefixOf s.data

/-- `process_language_callback`: deletes the language-choice message, answers
the callback, stores `lang` and the seeded one-turn `history`, transitions to
`Conversation.active`, and sends the localized welcome. -/
def process_language_callback (tr : String → String) (s : Session)
    (cbData : String) (promptMsgId : Nat) : Session × List Effect :=
  let lang_code := langCodeOf cbData
  let system_prompt := get_system_prompt lang_code
  (⟨Conversation.active,
    { s.data with lang := some lang_code,
                  history := some [⟨Role.system, system_prompt⟩] }⟩,
   [Effect.delMsg promptMsgId, Effect.cbAnswer Option.none,
    Effect.send (tr "welcome_message")])

/-- The order-summary f-string of `handle_tool_call`. -/
def summary_text (tr : String → String) (fields : List (String × Json)) (u : TgUser) : String :=
  "🔍 **" ++ tr "summary_title" ++ "**\n\n" ++
  "**" ++ tr "summary_when" ++ ":** " ++ pyStr (jGet fields "arrival_time") ++ "\n" ++
  "**" ++ tr "summary_duration" ++ ":** " ++ pyStr (jGet fields "duration_hours") ++ " ч.\n" ++
  "**" ++ tr "summary_hookahs" ++ ":** " ++ pyStr (jGet fields "hookahs_count") ++ " шт.\n" ++
  "**" ++ tr "summary_masters" ++ ":** " ++ pyStr (jGet fields "hookah_masters_count") ++ " чел.\n" ++
  "**" ++ tr "summary_where" ++ ":** " ++ pyStr (jGet fields "location") ++ "\n" ++
  "**" ++ tr "summary_phone" ++ ":** " ++ pyStr (jGet fields "phone_number") ++ "\n\n" ++
  "**" ++ tr "summary_client" ++ ":** " ++ user_link u

/-- `handle_tool_call`.  Result: session after the call, effects emitted, and
whether an exception was raised inside it (propagating to the caller's
`except` block).  For the matching function name, `json.loads` failure
(`arguments = none`) raises before `update_data`; a decoded non-dict payload
is stored by `update_data(order_details=...)` and then raises
`AttributeError` at the first `.get` while building the summary f-string; a
decoded dict is stored, the summary is sent with the confirm/edit keyboard,
and the state is set to `Conversation.confirmation`.  A non-matching name
does nothing. -/
def handle_tool_call (tr : String → String) (u : TgUser) (s : Session)
    (tc : ToolCall) : Session × List Effect × Bool :=
  if tc.function.name == "create_hookah_order" then
    match tc.function.arguments with
    | Option.none => (s, [], true)
    | some args =>
      let s1 : Session := ⟨s.fsm, { s.data with order_details := some args }⟩
      match args with
      | Json.obj fields =>
        (⟨Conversation.confirmation, s1.data⟩,
         [Effect.send (summary_text tr fields u)], false)
      | _ => (s1, [], true)
  else (s, [], false)

/-- `handle_conversation`: reads `history` and `lang` from the (copied) data,
appends the user turn with the language reminder, sends the "thinking"
indicator, makes the completion call, and routes its outcome:
free text → append assistant turn, persist history, edit the indicator;
tool calls → `handle_tool_call` on the first one, then delete the indicator;
timeout / other exception (including those raised inside `handle_tool_call`)
→ edit the indicator to the localized error, `history.pop()`, persist. -/
def handle_conversation (tr : String → String) (u : TgUser) (s : Session)
    (text : String) (comp : CompletionOutcome) (thinkingId : Nat) :
    Session × List Effect :=
  let history := s.data.history.getD []
  let lang := s.data.lang.getD "ru"
  let user_message_with_reminder :=
    text ++ " " ++ (((lang_reminders.find? (fun p => p.1 == lang)).map (fun p => p.2)).getD "")
  let history1 := history ++ [⟨Role.user, user_message_with_reminder⟩]
  let pre : List Effect := [Effect.send (tr "thinking_message"), Effect.completionCall]
  match comp with
  | CompletionOutcome.ok m =>
    match m.tool_calls with
    | [] =>
      let history2 := history1 ++ [⟨Role.assistant, m.content⟩]
      (⟨s.fsm, { s.data with history := some history2 }⟩,
       pre ++ [Effect.editText thinkingId m.content])
    | tc :: _ =>
      let tcr := handle_tool_call tr u s tc
      if tcr.2.2 then
        (⟨tcr.1.fsm, { tcr.1.data with history := some history1.dropLast }⟩,
         pre ++ tcr.2.1 ++ [Effect.editText thinkingId (tr "error_message")])
      else
        (tcr.1, pre ++ tcr.2.1 ++ [Effect.delMsg thinkingId])
  | CompletionOutcome.timeout =>
    (⟨s.fsm, { s.data with history := some history1.dropLast }⟩,
     pre ++ [Effect.editText thinkingId (tr "timeout_error_message")])
  | CompletionOutcome.error =>
    (⟨s.fsm, { s.data with history := some history1.dropLast }⟩,
     pre ++ [Effect.editText thinkingId (tr "error_message")])

/-- The operator (`ADMIN_ID`) summary f-string of `process_confirm_order`:
fixed, unlocalized Russian labels in the fixed field order. -/
def admin_summary_text (fields : List (String × Json)) (u : TgUser) : String :=
  "📩 **Новый заказ!**\n\n" ++
  "Когда: " ++ pyStr (jGet fields "arrival_time") ++ "\n" ++
  "На сколько: " ++ pyStr (jGet fields "duration_hours") ++ " ч.\n" ++
  "Кальяны: " ++ pyStr (jGet fields "hookahs_count") ++ " шт.\n" ++
  "Мастера: " ++ pyStr (jGet fields "hookah_masters_count") ++ " чел.\n" ++
  "Куда: " ++ pyStr (jGet fields "location") ++ "\n" ++
  "Телефон: " ++ pyStr (jGet fields "phone_number") ++ "\n\n" ++
  "Клиент: " ++ user_link u

/-- `process_confirm_order`: builds the admin summary from
`user_data.get("order_details")`, sends it to `ADMIN_ID`, edits the summary
message to the localized thanks, answers the callback, `state.finish()`.
When `order_details` is missing or not a dict, the first `.get` raises
`AttributeError` before any effect and the handler aborts (`none`). -/
def process_confirm_order (tr : String → String) (u : TgUser) (s : Session)
    (summaryMsgId : Nat) : Option (Session × List Effect) :=
  match s.data.order_details with
  | some (Json.obj fields) =>
    some (⟨Conversation.none, ⟨Option.none, Option.none, Option.none⟩⟩,
      [Effect.sendAdmin (admin_summary_text fields u),
       Effect.editText summaryMsgId (tr "confirmation_thanks_message"),
       Effect.cbAnswer Option.none])
  | _ => Option.none

/-- `process_edit_order`: removes the keyboard, answers the callback, appends
the fixed assistant clarification turn to `history`, persists it, prompts the
user, and returns to `Conversation.active`.  It reads and writes only
`history`: `order_details` is left untouched. -/
def process_edit_order (tr : String → String) (s : Session)
    (summaryMsgId : Nat) : Session × List Effect :=
  let history := s.data.history.getD []
  let history1 := history ++
    [⟨Role.assistant, "Пользователь хочет внести изменения в заказ. Уточни, что именно нужно поменять."⟩]
  (⟨Conversation.active, { s.data with history := some history1 }⟩,
   [Effect.clearMarkup summaryMsgId,
    Effect.cbAnswer (some (tr "edit_callback_answer")),
    Effect.send (tr "edit_prompt_message")])

/-- One inbound event for a session, carrying the external inputs the
corresponding handler consumes. -/
inductive Event where
  | start
  | langChoice (cbData : String) (promptMsgId : Nat)
  | message (text : String) (comp : CompletionOutcome) (thinkingId : Nat)
  | confirmBtn (msgId : Nat)
  | editBtn (msgId : Nat)

/-- The dispatcher: each handler is registered with a state filter (and the
`lang_` prefix filter for the language callback); an event with no matching
handler leaves the session unchanged.  `cmd_start` is registered for every
state.  A crashed confirm handler (missing/non-dict `order_details`) has
mutated nothing, so the session is unchanged. -/
def step (tr : String → String) (u : TgUser) (s : Session) (ev : Event) :
    Session × List Effect :=
  match ev with
  | Event.start => cmd_start s
  | Event.langChoice cbData promptMsgId =>
    if s.fsm = Conversation.waiting_for_language ∧ pyStartswith cbData "lang_" = true then
      process_language_callback tr s cbData promptMsgId
    else (s, [])
  | Event.message text comp thinkingId =>
    if s.fsm = Conversation.active then
      handle_conversation tr u s text comp thinkingId
    else (s, [])
  | Event.confirmBtn msgId =>
    if s.fsm = Conversation.confirmation then
      (process_confirm_order tr u s msgId).getD (s, [])
    else (s, [])
  | Event.editBtn msgId =>
    if s.fsm = Conversation.confirmation then
      process_edit_order tr s msgId
    else (s, [])

/-- A fresh user has no FSM record: state `None`, empty data dict. -/
def initialSession : Session :=
  ⟨Conversation.none, ⟨Option.none, Option.none, Option.none⟩⟩

/-- Session states reachable from a fresh user through any event sequence. -/
inductive Reachable (tr : String → String) (u : TgUser) : Session → Prop where
  | init : Reachable tr u initialSession
  | step (s : Session) (ev : Event) :
      Reachable tr u s → Reachable tr u (step tr u s ev).1

/-- The history pairing check: every `user` turn is immediately followed by an
`assistant` turn (in particular the log never ends with a `user` turn). -/
def paired : List Turn → Bool
  | [] => true
  | t :: rest =>
    if t.role = Role.user then
      match rest with
      | [] => false
      | t2 :: _ => (t2.role == Role.assistant) && paired rest
    else paired rest

/-- `sub` occurs contiguously in `s`. -/
def strContains (s sub : String) : Prop := ∃ a b, s = a ++ (sub ++ b)

/-- The turns for which the current-turn handling ends in the `except` block
of `handle_conversation`: the completion call raised (timeout or other
error), or the returned first tool call raises inside `handle_tool_call`
(argument payload fails `json.loads`, or decodes to a non-dict so the first
`.get` raises). -/
def adapterTurnFails (comp : CompletionOutcome) : Bool :=
  match comp with
  | CompletionOutcome.timeout => true
  | CompletionOutcome.error => true
  | CompletionOutcome.ok m =>
    match m.tool_calls with
    | [] => false
    | tc :: _ =>
      tc.function.name == "create_hookah_order" &&
        (match tc.function.arguments with
         | Option.none => true
         | some (Json.obj _) => false
         | some _ => true)

lemma paired_nil : paired [] = true := rfl

lemma paired_cons_user_nil (c : String) : paired [⟨Role.user, c⟩] = false := rfl

lemma paired_cons_user (c : String) (t2 : Turn) (rest : List Turn) :
    paired (⟨Role.user, c⟩ :: t2 :: rest) =
      ((t2.role == Role.assistant) && paired (t2 :: rest)) := rfl

lemma paired_cons_system (c : String) (rest : List Turn) :
    paired (⟨Role.system, c⟩ :: rest) = paired rest := by
  cases rest <;> rfl

lemma paired_cons_assistant (c : String) (rest : List Turn) :
    paired (⟨Role.assistant, c⟩ :: rest) = paired rest := by
  cases rest <;> rfl

/-- Appending one paired log to another preserves the pairing check. -/
lemma paired_append (h k : List Turn) (hh : paired h = true) (hk : paired k = true) :
    paired (h ++ k) = true := by
  induction h with
  | nil => simpa using hk
  | cons t rest ih =>
    obtain ⟨r, c⟩ := t
    cases r with
    | user =>
      cases rest with
      | nil => simp [paired_cons_user_nil] at hh
      | cons t2 rest2 =>
        rw [List.cons_append, List.cons_append, paired_cons_user]
        rw [paired_cons_user] at hh
        rw [Bool.and_eq_true] at hh ⊢
        refine ⟨hh.1, ?_⟩
        rw [← List.cons_append]
        exact ih hh.2
    | system =>
      rw [List.cons_append, paired_cons_system]
      rw [paired_cons_system] at hh
      exact ih hh
    | assistant =>
      rw [List.cons_append, paired_cons_assistant]
      rw [paired_cons_assistant] at hh
      exact ih hh

/-- Appending a user turn answered by an assistant turn preserves pairing. -/
lemma paired_append_user_assistant (h : List Turn) (hp : paired h = true)
    (cu ca : String) :
    paired ((h ++ [⟨Role.user, cu⟩]) ++ [⟨Role.assistant, ca⟩]) = true := by
  rw [List.append_assoc]
  refine paired_append h _ hp ?_
  rw [List.singleton_append, paired_cons_user, paired_cons_assistant, paired_nil]
  rfl

/-- Appending an assistant turn preserves pairing. -/
lemma paired_append_assistant (h : List Turn) (hp : paired h = true) (c : String) :
    paired (h ++ [⟨Role.assistant, c⟩]) = true := by
  refine paired_append h _ hp ?_
  rw [paired_cons_assistant]
  exact paired_nil

/-- The sessionwide invariant: the persisted history passes the pairing
check, and in `Conversation.confirmation` the data dict holds a decoded
dict under `order_details`. -/
def sessionInv (s : Session) : Prop :=
  paired (s.data.history.getD []) = true ∧
  (s.fsm = Conversation.confirmation →
    ∃ fields, s.data.order_details = some (Json.obj fields))

lemma cmd_start_inv (s : Session) : sessionInv (cmd_start s).1 := by
  constructor
  · simp [cmd_start, paired_nil]
  · simp [cmd_start]

lemma process_language_callback_inv (tr : String → String) (s : Session)
    (cbData : String) (promptMsgId : Nat) :
    sessionInv (process_language_callback tr s cbData promptMsgId).1 := by
  constructor
  · simp [process_language_callback, paired_cons_system, paired_nil]
  · simp [process_language_callback]

lemma handle_conversation_inv (tr : String → String) (u : TgUser) (s : Session)
    (text : String) (comp : CompletionOutcome) (thinkingId : Nat)
    (hact : s.fsm = Conversation.active) (h : sessionInv s) :
    sessionInv (handle_conversation tr u s text comp thinkingId).1 := by
  obtain ⟨hp, -⟩ := h
  cases comp with
  | ok m =>
    cases htc : m.tool_calls with
    | nil =>
      constructor
      · simp only [handle_conversation, htc]
        simpa using paired_append_user_assistant _ hp _ _
      · simp [handle_conversation, htc, hact]
    | cons tc rest =>
      cases hn : tc.function.name == "create_hookah_order" with
      | false =>
        constructor
        · simpa [handle_conversation, htc, handle_tool_call, hn] using hp
        · simp [handle_conversation, htc, handle_tool_call, hn, hact]
      | true =>
        cases ha : tc.function.arguments with
        | none =>
          constructor
          · simpa [handle_conversation, htc, handle_tool_call, hn, ha,
              List.dropLast_concat] using hp
          · simp [handle_conversation, htc, handle_tool_call, hn, ha, hact]
        | some args =>
          cases args with
          | obj fields =>
            constructor
            · simpa [handle_conversation, htc, handle_tool_call, hn, ha] using hp
            · intro _
              exact ⟨fields, by simp [handle_conversation, htc, handle_tool_call, hn, ha]⟩
          | str v =>
            constructor
            · simpa [handle_conversation, htc, handle_tool_call, hn, ha,
                List.dropLast_concat] using hp
            · simp [handle_conversation, htc, handle_tool_call, hn, ha, hact]
          | num v =>
            constructor
            · simpa [handle_conversation, htc, handle_tool_call, hn, ha,
                List.dropLast_concat] using hp
            · simp [handle_conversation, htc, handle_tool_call, hn, ha, hact]
          | bool v =>
            constructor
            · simpa [handle_conversation, htc, handle_tool_call, hn, ha,
                List.dropLast_concat] using hp
            · simp [handle_conversation, htc, handle_tool_call, hn, ha, hact]
          | null =>
            constructor
            · simpa [handle_conversation, htc, handle_tool_call, hn, ha,
                List.dropLast_concat] using hp
            · simp [handle_conversation, htc, handle_tool_call, hn, ha, hact]
          | arr xs =>
            constructor
            · simpa [handle_conversation, htc, handle_tool_call, hn, ha,
                List.dropLast_concat] using hp
            · simp [handle_conversation, htc, handle_tool_call, hn, ha, hact]
  | timeout =>
    constructor
    · simpa [handle_conversation, List.dropLast_concat] using hp
    · simp [handle_conversation, hact]
  | error =>
    constructor
    · simpa [handle_conversation, List.dropLast_concat] using hp
    · simp [handle_conversation, hact]

lemma process_confirm_order_inv (tr : String → String) (u : TgUser) (s : Session)
    (summaryMsgId : Nat) (h : sessionInv s) :
    sessionInv ((process_confirm_order tr u s summaryMsgId).getD (s, [])).1 := by
  cases hod : s.data.order_details with
  | none => simpa [process_confirm_order, hod] using h
  | some j =>
    cases j with
    | obj fields =>
      constructor
      · simp [process_confirm_order, hod, paired_nil]
      · simp [process_confirm_order, hod]
    | str v => simpa [process_confirm_order, hod] using h
    | num v => simpa [process_confirm_order, hod] using h
    | bool v => simpa [process_confirm_order, hod] using h
    | null => simpa [process_confirm_order, hod] using h
    | arr xs => simpa [process_confirm_order, hod] using h

lemma process_edit_order_inv (tr : String → String) (s : Session)
    (summaryMsgId : Nat) (h : sessionInv s) :
    sessionInv (process_edit_order tr s summaryMsgId).1 := by
  obtain ⟨hp, -⟩ := h
  constructor
  · simp only [process_edit_order]
    simpa using paired_append_assistant _ hp _
  · simp [process_edit_order]

lemma step_inv (tr : String → String) (u : TgUser) (s : Session) (ev : Event)
    (h : sessionInv s) : sessionInv (step tr u s ev).1 := by
  cases ev with
  | start => exact cmd_start_inv s
  | langChoice cbData promptMsgId =>
    by_cases hc : s.fsm = Conversation.waiting_for_language ∧ pyStartswith cbData "lang_" = true
    · simpa [step, hc] using process_language_callback_inv tr s cbData promptMsgId
    · simpa [step, hc] using h
  | message text comp thinkingId =>
    by_cases hc : s.fsm = Conversation.active
    · simpa [step, hc] using handle_conversation_inv tr u s text comp thinkingId hc h
    · simpa [step, hc] using h
  | confirmBtn msgId =>
    by_cases hc : s.fsm = Conversation.confirmation
    · simpa [step, hc] using process_confirm_order_inv tr u s msgId h
    · simpa [step, hc] using h
  | editBtn msgId =>
    by_cases hc : s.fsm = Conversation.confirmation
    · simpa [step, hc] using process_edit_order_inv tr s msgId h
    · simpa [step, hc] using h

lemma reachable_inv (tr : String → String) (u : TgUser) (s : Session)
    (h : Reachable tr u s) : sessionInv s := by
  induction h with
  | init => exact ⟨paired_nil, by simp [initialSession]⟩
  | step s' ev _ ih => exact step_inv tr u s' ev ih

lemma strContains_head (v b : String) : strContains (v ++ b) v := ⟨"", b, rfl⟩

lemma strContains_cons (a s v : String) (h : strContains s v) : strContains (a ++ s) v := by
  obtain ⟨x, y, hxy⟩ := h
  exact ⟨a ++ x, y, by rw [hxy, String.append_assoc]⟩

/-- The summary shown before confirmation interpolates every requested order
field value. -/
lemma summary_text_contains (tr : String → String) (fields : List (String × Json))
    (u : TgUser) (key : String)
    (hkey : key ∈ (["arrival_time", "duration_hours", "hookahs_count",
      "hookah_masters_count", "location", "phone_number"] : List String)) :
    strContains (summary_text tr fields u) (pyStr (jGet fields key)) := by
  simp only [List.mem_cons, List.not_mem_nil, or_false] at hkey
  rcases hkey with rfl | rfl | rfl | rfl | rfl | rfl <;>
    (simp only [summary_text, String.append_assoc];
     repeat (first | exact strContains_head _ _ | apply strContains_cons))

lemma lang_map_find_eq_none (c : String) (h : c ∉ (["ru", "en", "pl"] : List String)) :
    lang_map.find? (fun p => p.1 == c) = Option.none := by
  have h1 : c ≠ "ru" := by intro e; exact h (by simp [e])
  have h2 : c ≠ "en" := by intro e; exact h (by simp [e])
  have h3 : c ≠ "pl" := by intro e; exact h (by simp [e])
  have e1 : (("ru" : String) == c) = false := beq_eq_false_iff_ne.mpr fun e => h1 e.symm
  have e2 : (("en" : String) == c) = false := beq_eq_false_iff_ne.mpr fun e => h2 e.symm
  have e3 : (("pl" : String) == c) = false := beq_eq_false_iff_ne.mpr fun e => h3 e.symm
  simp [lang_map, List.find?, e1, e2, e3]

lemma get_system_prompt_ru :
    get_system_prompt "ru" = system_prompt_head ++ "русском" ++ system_prompt_tail := by
  have e : (("ru" : String) == "ru") = true := by decide
  simp [get_system_prompt, lang_map, List.find?, e]

lemma get_system_prompt_en :
    get_system_prompt "en" = system_prompt_head ++ "английском" ++ system_prompt_tail := by
  have e1 : (("ru" : String) == "en") = false := by decide
  have e2 : (("en" : String) == "en") = true := by decide
  simp [get_system_prompt, lang_map, List.find?, e1, e2]

/-- C1: history pairing invariant — in every reachable session state, every
user turn in the persisted `history` is immediately followed by an assistant
turn, and the history never ends with an unanswered user turn (a rolled-back
user turn is no longer in `history`); this holds after every handler,
including the extraction (tool-call) path into `Conversation.confirmation`,
which never persists the locally appended user turn. -/
theorem history_pairing_invariant (tr : String → String) (u : TgUser)
    (s : Session) (h : Reachable tr u s) :
    paired (s.data.history.getD []) = true :=
  (reachable_inv tr u s h).1

/-- Witness for C1 at a concrete reachable state (after `/start` and an
English language choice). -/
theorem history_pairing_invariant_witness :
    paired (((step (fun k => k) ⟨7, Option.none⟩
        (step (fun k => k) ⟨7, Option.none⟩ initialSession Event.start).1
        (Event.langChoice "lang_en" 3)).1).data.history.getD []) = true :=
  history_pairing_invariant (fun k => k) ⟨7, Option.none⟩ _
    (Reachable.step _ _ (Reachable.step _ _ Reachable.init))

/-- C10: whenever a reachable session is in `Conversation.confirmation`, the
data dict holds `order_details` (indeed a decoded dict), so the confirm
handler never reads a missing order when building the operator summary. -/
theorem confirmation_has_order (tr : String → String) (u : TgUser)
    (s : Session) (h : Reachable tr u s)
    (hc : s.fsm = Conversation.confirmation)
    (tr2 : String → String) (u2 : TgUser) (mid : Nat) :
    s.data.order_details ≠ Option.none ∧
    (process_confirm_order tr2 u2 s mid).isSome = true := by
  obtain ⟨fields, hf⟩ := (reachable_inv tr u s h).2 hc
  constructor
  · rw [hf]; exact Option.some_ne_none _
  · simp [process_confirm_order, hf]

/-- Witness for C10 at a concrete reachable confirmation state (start,
choose English, send a message answered by a full tool call). -/
theorem confirmation_has_order_witness :
    ((step (fun k => k) ⟨7, Option.none⟩
        (step (fun k => k) ⟨7, Option.none⟩
          (step (fun k => k) ⟨7, Option.none⟩ initialSession Event.start).1
          (Event.langChoice "lang_en" 3)).1
        (Event.message "order" (CompletionOutcome.ok ⟨"",
          [⟨⟨"create_hookah_order", some (Json.obj [("arrival_time", Json.str "tomorrow 8pm")])⟩⟩]⟩) 4)).1).data.order_details
      ≠ Option.none ∧
    (process_confirm_order (fun k => k) ⟨7, Option.none⟩
      (step (fun k => k) ⟨7, Option.none⟩
        (step (fun k => k) ⟨7, Option.none⟩
          (step (fun k => k) ⟨7, Option.none⟩ initialSession Event.start).1
          (Event.langChoice "lang_en" 3)).1
        (Event.message "order" (CompletionOutcome.ok ⟨"",
          [⟨⟨"create_hookah_order", some (Json.obj [("arrival_time", Json.str "tomorrow 8pm")])⟩⟩]⟩) 4)).1 9).isSome = true :=
  confirmation_has_order (fun k => k) ⟨7, Option.none⟩ _
    (Reachable.step _
      (Event.message "order" (CompletionOutcome.ok ⟨"",
        [⟨⟨"create_hookah_order", some (Json.obj [("arrival_time", Json.str "tomorrow 8pm")])⟩⟩]⟩) 4)
      (Reachable.step _ (Event.langChoice "lang_en" 3)
        (Reachable.step _ Event.start Reachable.init)))
    rfl (fun k => k) ⟨7, Option.none⟩ 9

/-- C8: `/start` in any state resets the session and moves to
`waiting_for_language`; a subsequent supported choice (`en`) stores the
language code, seeds `history` with exactly one system turn carrying the
English-specific instructions, and activates the chat loop. -/
theorem start_language_flow (tr : String → String) (u : TgUser) (s : Session)
    (pid : Nat) :
    (step tr u s Event.start).1.fsm = Conversation.waiting_for_language ∧
    (step tr u s Event.start).1.data.lang = Option.none ∧
    (step tr u s Event.start).1.data.history = Option.none ∧
    (step tr u s Event.start).1.data.order_details = Option.none ∧
    (step tr u (step tr u s Event.start).1 (Event.langChoice "lang_en" pid)).1.data.lang
      = some "en" ∧
    (step tr u (step tr u s Event.start).1 (Event.langChoice "lang_en" pid)).1.data.history
      = some [⟨Role.system, get_system_prompt "en"⟩] ∧
    strContains (get_system_prompt "en") "английском" ∧
    (step tr u (step tr u s Event.start).1 (Event.langChoice "lang_en" pid)).1.fsm
      = Conversation.active := by
  refine ⟨rfl, rfl, rfl, rfl, rfl, rfl, ?_, rfl⟩
  exact ⟨system_prompt_head, system_prompt_tail, by rw [get_system_prompt_en, String.append_assoc]⟩

/-- C5 counterexample: a `lang_de` choice (code outside the supported set
{ru, en, pl}) stores `session.lang = "de"`, not a supported default. -/
theorem unsupported_language_keeps_raw_code :
    ((step (fun k => k) ⟨7, Option.none⟩
        ⟨Conversation.waiting_for_language, ⟨Option.none, Option.none, Option.none⟩⟩
        (Event.langChoice "lang_de" 3)).1.data.lang = some "de") ∧
    "de" ∉ (["ru", "en", "pl"] : List String) := by
  constructor
  · rfl
  · decide

/-- C5 amended: an unsupported language choice stores the raw code in
`session.lang` (no fallback there); the fallback applies to the seeded
system turn only, whose instructions equal the primary (`ru`) prompt; the
welcome message is still sent, so there is no user-visible failure. -/
theorem unsupported_language_defaults_instructions (tr : String → String)
    (u : TgUser) (s : Session) (cbData : String) (pid : Nat)
    (hw : s.fsm = Conversation.waiting_for_language)
    (hpre : pyStartswith cbData "lang_" = true)
    (hunsup : langCodeOf cbData ∉ (["ru", "en", "pl"] : List String)) :
    (step tr u s (Event.langChoice cbData pid)).1.fsm = Conversation.active ∧
    (step tr u s (Event.langChoice cbData pid)).1.data.lang = some (langCodeOf cbData) ∧
    (step tr u s (Event.langChoice cbData pid)).1.data.history
      = some [⟨Role.system, get_system_prompt (langCodeOf cbData)⟩] ∧
    get_system_prompt (langCodeOf cbData) = get_system_prompt "ru" ∧
    (step tr u s (Event.langChoice cbData pid)).2
      = [Effect.delMsg pid, Effect.cbAnswer Option.none, Effect.send (tr "welcome_message")] := by
  have hfind := lang_map_find_eq_none (langCodeOf cbData) hunsup
  refine ⟨?_, ?_, ?_, ?_, ?_⟩
  · simp [step, hw, hpre, process_language_callback]
  · simp [step, hw, hpre, process_language_callback]
  · simp [step, hw, hpre, process_language_callback]
  · rw [get_system_prompt_ru]
    simp [get_system_prompt, hfind]
  · simp [step, hw, hpre, process_language_callback]

/-- Witness for C5 amended at the concrete unsupported code `de`. -/
theorem unsupported_language_defaults_instructions_witness :
    (step (fun k => k) ⟨7, Option.none⟩
        ⟨Conversation.waiting_for_language, ⟨Option.none, Option.none, Option.none⟩⟩
        (Event.langChoice "lang_de" 3)).1.fsm = Conversation.active ∧
    (step (fun k => k) ⟨7, Option.none⟩
        ⟨Conversation.waiting_for_language, ⟨Option.none, Option.none, Option.none⟩⟩
        (Event.langChoice "lang_de" 3)).1.data.lang = some (langCodeOf "lang_de") ∧
    (step (fun k => k) ⟨7, Option.none⟩
        ⟨Conversation.waiting_for_language, ⟨Option.none, Option.none, Option.none⟩⟩
        (Event.langChoice "lang_de" 3)).1.data.history
      = some [⟨Role.system, get_system_prompt (langCodeOf "lang_de")⟩] ∧
    get_system_prompt (langCodeOf "lang_de") = get_system_prompt "ru" ∧
    (step (fun k => k) ⟨7, Option.none⟩
        ⟨Conversation.waiting_for_language, ⟨Option.none, Option.none, Option.none⟩⟩
        (Event.langChoice "lang_de" 3)).2
      = [Effect.delMsg 3, Effect.cbAnswer Option.none, Effect.send "welcome_message"] :=
  unsupported_language_defaults_instructions (fun k => k) ⟨7, Option.none⟩
    ⟨Conversation.waiting_for_language, ⟨Option.none, Option.none, Option.none⟩⟩
    "lang_de" 3 rfl rfl (by decide)

/-- C2: on any adapter failure while Active (timeout, other completion
error, or an exception raised while handling the result), the persisted
history equals the history from before the user's message (the just-appended
user turn is rolled back), the session stays Active, and the only outbound
activity is the single completion attempt plus replacing the "working"
indicator with a localized error message — no retry. -/
theorem adapter_failure_rollback (tr : String → String) (u : TgUser)
    (s : Session) (text : String) (comp : CompletionOutcome) (thinkingId : Nat)
    (hact : s.fsm = Conversation.active)
    (hfail : adapterTurnFails comp = true) :
    (step tr u s (Event.message text comp thinkingId)).1.fsm = Conversation.active ∧
    (step tr u s (Event.message text comp thinkingId)).1.data.history
      = some (s.data.history.getD []) ∧
    ((step tr u s (Event.message text comp thinkingId)).2
        = [Effect.send (tr "thinking_message"), Effect.completionCall,
           Effect.editText thinkingId (tr "timeout_error_message")] ∨
     (step tr u s (Event.message text comp thinkingId)).2
        = [Effect.send (tr "thinking_message"), Effect.completionCall,
           Effect.editText thinkingId (tr "error_message")]) := by
  cases comp with
  | timeout =>
    refine ⟨?_, ?_, Or.inl ?_⟩ <;>
      simp [step, hact, handle_conversation, List.dropLast_concat]
  | error =>
    refine ⟨?_, ?_, Or.inr ?_⟩ <;>
      simp [step, hact, handle_conversation, List.dropLast_concat]
  | ok m =>
    cases htc : m.tool_calls with
    | nil => simp [adapterTurnFails, htc] at hfail
    | cons tc rest =>
      cases hn : tc.function.name == "create_hookah_order" with
      | false => simp [adapterTurnFails, htc, hn] at hfail
      | true =>
        cases ha : tc.function.arguments with
        | none =>
          refine ⟨?_, ?_, Or.inr ?_⟩ <;>
            simp [step, hact, handle_conversation, handle_tool_call, htc, hn, ha,
              List.dropLast_concat]
        | some args =>
          cases args with
          | obj fields => simp [adapterTurnFails, htc, hn, ha] at hfail
          | str v =>
            refine ⟨?_, ?_, Or.inr ?_⟩ <;>
              simp [step, hact, handle_conversation, handle_tool_call, htc, hn, ha,
                List.dropLast_concat]
          | num v =>
            refine ⟨?_, ?_, Or.inr ?_⟩ <;>
              simp [step, hact, handle_conversation, handle_tool_call, htc, hn, ha,
                List.dropLast_concat]
          | bool v =>
            refine ⟨?_, ?_, Or.inr ?_⟩ <;>
              simp [step, hact, handle_conversation, handle_tool_call, htc, hn, ha,
                List.dropLast_concat]
          | null =>
            refine ⟨?_, ?_, Or.inr ?_⟩ <;>
              simp [step, hact, handle_conversation, handle_tool_call, htc, hn, ha,
                List.dropLast_concat]
          | arr xs =>
            refine ⟨?_, ?_, Or.inr ?_⟩ <;>
              simp [step, hact, handle_conversation, handle_tool_call, htc, hn, ha,
                List.dropLast_concat]

/-- Witness for C2 at a concrete Active session with a timed-out call. -/
theorem adapter_failure_rollback_witness :
    (step (fun k => k) ⟨7, Option.none⟩
        ⟨Conversation.active, ⟨some "en", some [⟨Role.system, "sys"⟩], Option.none⟩⟩
        (Event.message "hi" CompletionOutcome.timeout 2)).1.fsm = Conversation.active ∧
    (step (fun k => k) ⟨7, Option.none⟩
        ⟨Conversation.active, ⟨some "en", some [⟨Role.system, "sys"⟩], Option.none⟩⟩
        (Event.message "hi" CompletionOutcome.timeout 2)).1.data.history
      = some [⟨Role.system, "sys"⟩] ∧
    ((step (fun k => k) ⟨7, Option.none⟩
        ⟨Conversation.active, ⟨some "en", some [⟨Role.system, "sys"⟩], Option.none⟩⟩
        (Event.message "hi" CompletionOutcome.timeout 2)).2
        = [Effect.send "thinking_message", Effect.completionCall,
           Effect.editText 2 "timeout_error_message"] ∨
     (step (fun k => k) ⟨7, Option.none⟩
        ⟨Conversation.active, ⟨some "en", some [⟨Role.system, "sys"⟩], Option.none⟩⟩
        (Event.message "hi" CompletionOutcome.timeout 2)).2
        = [Effect.send "thinking_message", Effect.completionCall,
           Effect.editText 2 "error_message"]) :=
  adapter_failure_rollback (fun k => k) ⟨7, Option.none⟩
    ⟨Conversation.active, ⟨some "en", some [⟨Role.system, "sys"⟩], Option.none⟩⟩
    "hi" CompletionOutcome.timeout 2 rfl rfl

/-- C3 counterexample: a decodable tool-call payload missing all six
required fields (the empty JSON object) is nevertheless stored as
`order_details` and the session does transition to Confirmation — the code
performs no required-field validation. -/
theorem missing_fields_payload_stored :
    (step (fun k => k) ⟨7, Option.none⟩
        ⟨Conversation.active, ⟨some "en", some [⟨Role.system, "sys"⟩], Option.none⟩⟩
        (Event.message "hi" (CompletionOutcome.ok ⟨"",
          [⟨⟨"create_hookah_order", some (Json.obj [])⟩⟩]⟩) 2)).1.fsm
      = Conversation.confirmation ∧
    (step (fun k => k) ⟨7, Option.none⟩
        ⟨Conversation.active, ⟨some "en", some [⟨Role.system, "sys"⟩], Option.none⟩⟩
        (Event.message "hi" (CompletionOutcome.ok ⟨"",
          [⟨⟨"create_hookah_order", some (Json.obj [])⟩⟩]⟩) 2)).1.data.order_details
      = some (Json.obj []) :=
  ⟨rfl, rfl⟩

/-- C3 amended: `order_details` is only stored when the payload decodes as
JSON; a payload that fails `json.loads` is treated as an adapter failure for
the turn (no order stored, rollback, localized error, state stays Active) —
but field presence is not validated: a decodable payload missing required
fields is stored as-is and does reach Confirmation. -/
theorem malformed_payload_is_adapter_failure (tr : String → String) (u : TgUser)
    (s : Session) (text content : String) (rest : List ToolCall)
    (thinkingId : Nat) (tc : ToolCall)
    (hact : s.fsm = Conversation.active)
    (hname : tc.function.name = "create_hookah_order")
    (hargs : tc.function.arguments = Option.none) :
    (step tr u s (Event.message text (CompletionOutcome.ok ⟨content, tc :: rest⟩) thinkingId)).1.data.order_details
      = s.data.order_details ∧
    (step tr u s (Event.message text (CompletionOutcome.ok ⟨content, tc :: rest⟩) thinkingId)).1.fsm
      = Conversation.active ∧
    (step tr u s (Event.message text (CompletionOutcome.ok ⟨content, tc :: rest⟩) thinkingId)).1.data.history
      = some (s.data.history.getD []) ∧
    (step tr u s (Event.message text (CompletionOutcome.ok ⟨content, tc :: rest⟩) thinkingId)).2
      = [Effect.send (tr "thinking_message"), Effect.completionCall,
         Effect.editText thinkingId (tr "error_message")] := by
  have hn : (tc.function.name == "create_hookah_order") = true := beq_iff_eq.mpr hname
  refine ⟨?_, ?_, ?_, ?_⟩ <;>
    simp [step, hact, handle_conversation, handle_tool_call, hn, hargs,
      List.dropLast_concat]

/-- Witness for C3 amended at a concrete undecodable payload. -/
theorem malformed_payload_is_adapter_failure_witness :
    (step (fun k => k) ⟨7, Option.none⟩
        ⟨Conversation.active, ⟨some "en", some [⟨Role.system, "sys"⟩], Option.none⟩⟩
        (Event.message "hi" (CompletionOutcome.ok ⟨"",
          [⟨⟨"create_hookah_order", Option.none⟩⟩]⟩) 2)).1.data.order_details
      = Option.none ∧
    (step (fun k => k) ⟨7, Option.none⟩
        ⟨Conversation.active, ⟨some "en", some [⟨Role.system, "sys"⟩], Option.none⟩⟩
        (Event.message "hi" (CompletionOutcome.ok ⟨"",
          [⟨⟨"create_hookah_order", Option.none⟩⟩]⟩) 2)).1.fsm
      = Conversation.active ∧
    (step (fun k => k) ⟨7, Option.none⟩
        ⟨Conversation.active, ⟨some "en", some [⟨Role.system, "sys"⟩], Option.none⟩⟩
        (Event.message "hi" (CompletionOutcome.ok ⟨"",
          [⟨⟨"create_hookah_order", Option.none⟩⟩]⟩) 2)).1.data.history
      = some [⟨Role.system, "sys"⟩] ∧
    (step (fun k => k) ⟨7, Option.none⟩
        ⟨Conversation.active, ⟨some "en", some [⟨Role.system, "sys"⟩], Option.none⟩⟩
        (Event.message "hi" (CompletionOutcome.ok ⟨"",
          [⟨⟨"create_hookah_order", Option.none⟩⟩]⟩) 2)).2
      = [Effect.send "thinking_message", Effect.completionCall,
         Effect.editText 2 "error_message"] :=
  malformed_payload_is_adapter_failure (fun k => k) ⟨7, Option.none⟩
    ⟨Conversation.active, ⟨some "en", some [⟨Role.system, "sys"⟩], Option.none⟩⟩
    "hi" "" [] 2 ⟨⟨"create_hookah_order", Option.none⟩⟩ rfl rfl rfl

/-- C4 counterexample: pressing edit in Confirmation does NOT clear
`order_details` — the edit handler only touches `history`, so the pending
order is still stored after the transition back to Active. -/
theorem edit_retains_pending_order :
    (step (fun k => k) ⟨7, Option.none⟩
        ⟨Conversation.confirmation,
          ⟨some "en", some [⟨Role.system, "sys"⟩],
           some (Json.obj [("arrival_time", Json.str "t")])⟩⟩
        (Event.editBtn 4)).1.data.order_details
      = some (Json.obj [("arrival_time", Json.str "t")]) ∧
    (step (fun k => k) ⟨7, Option.none⟩
        ⟨Conversation.confirmation,
          ⟨some "en", some [⟨Role.system, "sys"⟩],
           some (Json.obj [("arrival_time", Json.str "t")])⟩⟩
        (Event.editBtn 4)).1.fsm = Conversation.active :=
  ⟨rfl, rfl⟩

/-- C4 amended: the edit press appends exactly one assistant clarification
turn, returns the session to Active, and leaves `order_details` untouched
(it is not cleared); a Confirm before a fresh extraction is nevertheless
impossible, because the confirm handler only dispatches in Confirmation and
the session is now Active. -/
theorem edit_transition_spec (tr : String → String) (u : TgUser) (s : Session)
    (mid mid2 : Nat) (hconf : s.fsm = Conversation.confirmation) :
    (step tr u s (Event.editBtn mid)).1.fsm = Conversation.active ∧
    (step tr u s (Event.editBtn mid)).1.data.history
      = some (s.data.history.getD [] ++
          [⟨Role.assistant, "Пользователь хочет внести изменения в заказ. Уточни, что именно нужно поменять."⟩]) ∧
    (step tr u s (Event.editBtn mid)).1.data.order_details = s.data.order_details ∧
    step tr u (step tr u s (Event.editBtn mid)).1 (Event.confirmBtn mid2)
      = ((step tr u s (Event.editBtn mid)).1, []) := by
  refine ⟨?_, ?_, ?_, ?_⟩ <;>
    simp [step, hconf, process_edit_order]

/-- Witness for C4 amended at a concrete Confirmation session. -/
theorem edit_transition_spec_witness :
    (step (fun k => k) ⟨7, Option.none⟩
        ⟨Conversation.confirmation,
          ⟨some "en", some [⟨Role.system, "sys"⟩], some (Json.obj [])⟩⟩
        (Event.editBtn 4)).1.fsm = Conversation.active ∧
    (step (fun k => k) ⟨7, Option.none⟩
        ⟨Conversation.confirmation,
          ⟨some "en", some [⟨Role.system, "sys"⟩], some (Json.obj [])⟩⟩
        (Event.editBtn 4)).1.data.history
      = some [⟨Role.system, "sys"⟩,
          ⟨Role.assistant, "Пользователь хочет внести изменения в заказ. Уточни, что именно нужно поменять."⟩] ∧
    (step (fun k => k) ⟨7, Option.none⟩
        ⟨Conversation.confirmation,
          ⟨some "en", some [⟨Role.system, "sys"⟩], some (Json.obj [])⟩⟩
        (Event.editBtn 4)).1.data.order_details = some (Json.obj []) ∧
    step (fun k => k) ⟨7, Option.none⟩
      (step (fun k => k) ⟨7, Option.none⟩
        ⟨Conversation.confirmation,
          ⟨some "en", some [⟨Role.system, "sys"⟩], some (Json.obj [])⟩⟩
        (Event.editBtn 4)).1 (Event.confirmBtn 5)
      = ((step (fun k => k) ⟨7, Option.none⟩
        ⟨Conversation.confirmation,
          ⟨some "en", some [⟨Role.system, "sys"⟩], some (Json.obj [])⟩⟩
        (Event.editBtn 4)).1, []) :=
  edit_transition_spec (fun k => k) ⟨7, Option.none⟩
    ⟨Conversation.confirmation,
      ⟨some "en", some [⟨Role.system, "sys"⟩], some (Json.obj [])⟩⟩
    4 5 rfl

/-- C6: a message in Active answered by a `create_hookah_order` tool call
with a decodable dict payload stores the decoded payload as `order_details`,
moves the session to Confirmation, persists no new turn to `history`, emits
exactly one completion call plus the summary message (the "working"
indicator is sent and then deleted, no retry), and the summary interpolates
all six order field values. -/
theorem extraction_success_flow (tr : String → String) (u : TgUser)
    (s : Session) (text content : String) (rest : List ToolCall)
    (thinkingId : Nat) (fields : List (String × Json)) (tc : ToolCall)
    (hact : s.fsm = Conversation.active)
    (hname : tc.function.name = "create_hookah_order")
    (hargs : tc.function.arguments = some (Json.obj fields)) :
    (step tr u s (Event.message text (CompletionOutcome.ok ⟨content, tc :: rest⟩) thinkingId)).1.fsm
      = Conversation.confirmation ∧
    (step tr u s (Event.message text (CompletionOutcome.ok ⟨content, tc :: rest⟩) thinkingId)).1.data.order_details
      = some (Json.obj fields) ∧
    (step tr u s (Event.message text (CompletionOutcome.ok ⟨content, tc :: rest⟩) thinkingId)).1.data.history
      = s.data.history ∧
    (step tr u s (Event.message text (CompletionOutcome.ok ⟨content, tc :: rest⟩) thinkingId)).2
      = [Effect.send (tr "thinking_message"), Effect.completionCall,
         Effect.send (summary_text tr fields u), Effect.delMsg thinkingId] ∧
    strContains (summary_text tr fields u) (pyStr (jGet fields "arrival_time")) ∧
    strContains (summary_text tr fields u) (pyStr (jGet fields "duration_hours")) ∧
    strContains (summary_text tr fields u) (pyStr (jGet fields "hookahs_count")) ∧
    strContains (summary_text tr fields u) (pyStr (jGet fields "hookah_masters_count")) ∧
    strContains (summary_text tr fields u) (pyStr (jGet fields "location")) ∧
    strContains (summary_text tr fields u) (pyStr (jGet fields "phone_number")) := by
  have hn : (tc.function.name == "create_hookah_order") = true := beq_iff_eq.mpr hname
  refine ⟨?_, ?_, ?_, ?_, ?_, ?_, ?_, ?_, ?_, ?_⟩
  · simp [step, hact, handle_conversation, handle_tool_call, hn, hargs]
  · simp [step, hact, handle_conversation, handle_tool_call, hn, hargs]
  · simp [step, hact, handle_conversation, handle_tool_call, hn, hargs]
  · simp [step, hact, handle_conversation, handle_tool_call, hn, hargs]
  · exact summary_text_contains tr fields u "arrival_time" (by decide)
  · exact summary_text_contains tr fields u "duration_hours" (by decide)
  · exact summary_text_contains tr fields u "hookahs_count" (by decide)
  · exact summary_text_contains tr fields u "hookah_masters_count" (by decide)
  · exact summary_text_contains tr fields u "location" (by decide)
  · exact summary_text_contains tr fields u "phone_number" (by decide)

/-- Witness for C6 at a concrete full extraction (Scenario B shape). -/
theorem extraction_success_flow_witness :
    (step (fun k => k) ⟨1, some "bob"⟩
        ⟨Conversation.active, ⟨some "en", some [⟨Role.system, "sys"⟩], Option.none⟩⟩
        (Event.message "Tomorrow at 8pm, 3 hours, 2 masters, 5 hookahs, Main St 1, +1234567890"
          (CompletionOutcome.ok ⟨"",
            [⟨⟨"create_hookah_order", some (Json.obj
              [("arrival_time", Json.str "Tomorrow at 8pm"),
               ("duration_hours", Json.num 3),
               ("hookah_masters_count", Json.num 2),
               ("hookahs_count", Json.num 5),
               ("location", Json.str "Main St 1"),
               ("phone_number", Json.str "+1234567890")])⟩⟩]⟩) 5)).1.fsm
      = Conversation.confirmation ∧
    (step (fun k => k) ⟨1, some "bob"⟩
        ⟨Conversation.active, ⟨some "en", some [⟨Role.system, "sys"⟩], Option.none⟩⟩
        (Event.message "Tomorrow at 8pm, 3 hours, 2 masters, 5 hookahs, Main St 1, +1234567890"
          (CompletionOutcome.ok ⟨"",
            [⟨⟨"create_hookah_order", some (Json.obj
              [("arrival_time", Json.str "Tomorrow at 8pm"),
               ("duration_hours", Json.num 3),
               ("hookah_masters_count", Json.num 2),
               ("hookahs_count", Json.num 5),
               ("location", Json.str "Main St 1"),
               ("phone_number", Json.str "+1234567890")])⟩⟩]⟩) 5)).1.data.order_details
      = some (Json.obj
          [("arrival_time", Json.str "Tomorrow at 8pm"),
           ("duration_hours", Json.num 3),
           ("hookah_masters_count", Json.num 2),
           ("hookahs_count", Json.num 5),
           ("location", Json.str "Main St 1"),
           ("phone_number", Json.str "+1234567890")]) ∧
    (step (fun k => k) ⟨1, some "bob"⟩
        ⟨Conversation.active, ⟨some "en", some [⟨Role.system, "sys"⟩], Option.none⟩⟩
        (Event.message "Tomorrow at 8pm, 3 hours, 2 masters, 5 hookahs, Main St 1, +1234567890"
          (CompletionOutcome.ok ⟨"",
            [⟨⟨"create_hookah_order", some (Json.obj
              [("arrival_time", Json.str "Tomorrow at 8pm"),
               ("duration_hours", Json.num 3),
               ("hookah_masters_count", Json.num 2),
               ("hookahs_count", Json.num 5),
               ("location", Json.str "Main St 1"),
               ("phone_number", Json.str "+1234567890")])⟩⟩]⟩) 5)).1.data.history
      = some [⟨Role.system, "sys"⟩] ∧
    (step (fun k => k) ⟨1, some "bob"⟩
        ⟨Conversation.active, ⟨some "en", some [⟨Role.system, "sys"⟩], Option.none⟩⟩
        (Event.message "Tomorrow at 8pm, 3 hours, 2 masters, 5 hookahs, Main St 1, +1234567890"
          (CompletionOutcome.ok ⟨"",
            [⟨⟨"create_hookah_order", some (Json.obj
              [("arrival_time", Json.str "Tomorrow at 8pm"),
               ("duration_hours", Json.num 3),
               ("hookah_masters_count", Json.num 2),
               ("hookahs_count", Json.num 5),
               ("location", Json.str "Main St 1"),
               ("phone_number", Json.str "+1234567890")])⟩⟩]⟩) 5)).2
      = [Effect.send "thinking_message", Effect.completionCall,
         Effect.send (summary_text (fun k => k)
           [("arrival_time", Json.str "Tomorrow at 8pm"),
            ("duration_hours", Json.num 3),
            ("hookah_masters_count", Json.num 2),
            ("hookahs_count", Json.num 5),
            ("location", Json.str "Main St 1"),
            ("phone_number", Json.str "+1234567890")] ⟨1, some "bob"⟩),
         Effect.delMsg 5] ∧
    strContains (summary_text (fun k => k)
        [("arrival_time", Json.str "Tomorrow at 8pm"),
         ("duration_hours", Json.num 3),
         ("hookah_masters_count", Json.num 2),
         ("hookahs_count", Json.num 5),
         ("location", Json.str "Main St 1"),
         ("phone_number", Json.str "+1234567890")] ⟨1, some "bob"⟩)
      (pyStr (jGet
        [("arrival_time", Json.str "Tomorrow at 8pm"),
         ("duration_hours", Json.num 3),
         ("hookah_masters_count", Json.num 2),
         ("hookahs_count", Json.num 5),
         ("location", Json.str "Main St 1"),
         ("phone_number", Json.str "+1234567890")] "arrival_time")) ∧
    strContains (summary_text (fun k => k)
        [("arrival_time", Json.str "Tomorrow at 8pm"),
         ("duration_hours", Json.num 3),
         ("hookah_masters_count", Json.num 2),
         ("hookahs_count", Json.num 5),
         ("location", Json.str "Main St 1"),
         ("phone_number", Json.str "+1234567890")] ⟨1, some "bob"⟩)
      (pyStr (jGet
        [("arrival_time", Json.str "Tomorrow at 8pm"),
         ("duration_hours", Json.num 3),
         ("hookah_masters_count", Json.num 2),
         ("hookahs_count", Json.num 5),
         ("location", Json.str "Main St 1"),
         ("phone_number", Json.str "+1234567890")] "duration_hours")) ∧
    strContains (summary_text (fun k => k)
        [("arrival_time", Json.str "Tomorrow at 8pm"),
         ("duration_hours", Json.num 3),
         ("hookah_masters_count", Json.num 2),
         ("hookahs_count", Json.num 5),
         ("location", Json.str "Main St 1"),
         ("phone_number", Json.str "+1234567890")] ⟨1, some "bob"⟩)
      (pyStr (jGet
        [("arrival_time", Json.str "Tomorrow at 8pm"),
         ("duration_hours", Json.num 3),
         ("hookah_masters_count", Json.num 2),
         ("hookahs_count", Json.num 5),
         ("location", Json.str "Main St 1"),
         ("phone_number", Json.str "+1234567890")] "hookahs_count")) ∧
    strContains (summary_text (fun k => k)
        [("arrival_time", Json.str "Tomorrow at 8pm"),
         ("duration_hours", Json.num 3),
         ("hookah_masters_count", Json.num 2),
         ("hookahs_count", Json.num 5),
         ("location", Json.str "Main St 1"),
         ("phone_number", Json.str "+1234567890")] ⟨1, some "bob"⟩)
      (pyStr (jGet
        [("arrival_time", Json.str "Tomorrow at 8pm"),
         ("duration_hours", Json.num 3),
         ("hookah_masters_count", Json.num 2),
         ("hookahs_count", Json.num 5),
         ("location", Json.str "Main St 1"),
         ("phone_number", Json.str "+1234567890")] "hookah_masters_count")) ∧
    strContains (summary_text (fun k => k)
        [("arrival_time", Json.str "Tomorrow at 8pm"),
         ("duration_hours", Json.num 3),
         ("hookah_masters_count", Json.num 2),
         ("hookahs_count", Json.num 5),
         ("location", Json.str "Main St 1"),
         ("phone_number", Json.str "+1234567890")] ⟨1, some "bob"⟩)
      (pyStr (jGet
        [("arrival_time", Json.str "Tomorrow at 8pm"),
         ("duration_hours", Json.num 3),
         ("hookah_masters_count", Json.num 2),
         ("hookahs_count", Json.num 5),
         ("location", Json.str "Main St 1"),
         ("phone_number", Json.str "+1234567890")] "location")) ∧
    strContains (summary_text (fun k => k)
        [("arrival_time", Json.str "Tomorrow at 8pm"),
         ("duration_hours", Json.num 3),
         ("hookah_masters_count", Json.num 2),
         ("hookahs_count", Json.num 5),
         ("location", Json.str "Main St 1"),
         ("phone_number", Json.str "+1234567890")] ⟨1, some "bob"⟩)
      (pyStr (jGet
        [("arrival_time", Json.str "Tomorrow at 8pm"),
         ("duration_hours", Json.num 3),
         ("hookah_masters_count", Json.num 2),
         ("hookahs_count", Json.num 5),
         ("location", Json.str "Main St 1"),
         ("phone_number", Json.str "+1234567890")] "phone_number")) :=
  extraction_success_flow (fun k => k) ⟨1, some "bob"⟩
    ⟨Conversation.active, ⟨some "en", some [⟨Role.system, "sys"⟩], Option.none⟩⟩
    "Tomorrow at 8pm, 3 hours, 2 masters, 5 hookahs, Main St 1, +1234567890" "" [] 5
    [("arrival_time", Json.str "Tomorrow at 8pm"),
     ("duration_hours", Json.num 3),
     ("hookah_masters_count", Json.num 2),
     ("hookahs_count", Json.num 5),
     ("location", Json.str "Main St 1"),
     ("phone_number", Json.str "+1234567890")]
    ⟨⟨"create_hookah_order", some (Json.obj
      [("arrival_time", Json.str "Tomorrow at 8pm"),
       ("duration_hours", Json.num 3),
       ("hookah_masters_count", Json.num 2),
       ("hookahs_count", Json.num 5),
       ("location", Json.str "Main St 1"),
       ("phone_number", Json.str "+1234567890")])⟩⟩
    rfl rfl rfl

/-- C7: confirming in Confirmation sends exactly one unlocalized message to
the fixed `ADMIN_ID` destination containing all six order fields and the
client reference in the fixed order when / duration / hookahs / masters /
location / phone / client, edits the user-facing message to the localized
thank-you, answers the callback, and disposes the session (state and data
cleared); a subsequent plain message is ignored and `/start` begins a fresh
session. -/
theorem confirm_order_flow (tr : String → String) (u : TgUser) (s : Session)
    (mid : Nat) (fields : List (String × Json))
    (mtext : String) (mcomp : CompletionOutcome) (mtid : Nat)
    (hconf : s.fsm = Conversation.confirmation)
    (hod : s.data.order_details = some (Json.obj fields)) :
    (step tr u s (Event.confirmBtn mid)).2
      = [Effect.sendAdmin (admin_summary_text fields u),
         Effect.editText mid (tr "confirmation_thanks_message"),
         Effect.cbAnswer Option.none] ∧
    (∃ a1 a2 a3 a4 a5 a6 a7,
      admin_summary_text fields u =
        a1 ++ (pyStr (jGet fields "arrival_time") ++
          (a2 ++ (pyStr (jGet fields "duration_hours") ++
            (a3 ++ (pyStr (jGet fields "hookahs_count") ++
              (a4 ++ (pyStr (jGet fields "hookah_masters_count") ++
                (a5 ++ (pyStr (jGet fields "location") ++
                  (a6 ++ (pyStr (jGet fields "phone_number") ++
                    (a7 ++ user_link u))))))))))))) ∧
    (step tr u s (Event.confirmBtn mid)).1 = initialSession ∧
    step tr u (step tr u s (Event.confirmBtn mid)).1 (Event.message mtext mcomp mtid)
      = ((step tr u s (Event.confirmBtn mid)).1, []) ∧
    (step tr u (step tr u s (Event.confirmBtn mid)).1 Event.start).1
      = ⟨Conversation.waiting_for_language, ⟨Option.none, Option.none, Option.none⟩⟩ := by
  refine ⟨?_, ?_, ?_, ?_, ?_⟩
  · simp [step, hconf, process_confirm_order, hod]
  · refine ⟨"📩 **Новый заказ!**\n\n" ++ "Когда: ", "\n" ++ "На сколько: ",
      " ч.\n" ++ "Кальяны: ", " шт.\n" ++ "Мастера: ", " чел.\n" ++ "Куда: ",
      "\n" ++ "Телефон: ", "\n\n" ++ "Клиент: ", ?_⟩
    simp only [admin_summary_text, String.append_assoc]
  · simp [step, hconf, process_confirm_order, hod, initialSession]
  · simp [step, hconf, process_confirm_order, hod]
  · simp [step, hconf, process_confirm_order, hod, cmd_start]

/-- Witness for C7 at a concrete confirmed order. -/
theorem confirm_order_flow_witness :
    (step (fun k => k) ⟨1, some "bob"⟩
        ⟨Conversation.confirmation,
          ⟨some "en", some [⟨Role.system, "sys"⟩],
           some (Json.obj [("arrival_time", Json.str "t")])⟩⟩
        (Event.confirmBtn 4)).2
      = [Effect.sendAdmin (admin_summary_text
            [("arrival_time", Json.str "t")] ⟨1, some "bob"⟩),
         Effect.editText 4 "confirmation_thanks_message",
         Effect.cbAnswer Option.none] ∧
    (∃ a1 a2 a3 a4 a5 a6 a7,
      admin_summary_text [("arrival_time", Json.str "t")] ⟨1, some "bob"⟩ =
        a1 ++ (pyStr (jGet [("arrival_time", Json.str "t")] "arrival_time") ++
          (a2 ++ (pyStr (jGet [("arrival_time", Json.str "t")] "duration_hours") ++
            (a3 ++ (pyStr (jGet [("arrival_time", Json.str "t")] "hookahs_count") ++
              (a4 ++ (pyStr (jGet [("arrival_time", Json.str "t")] "hookah_masters_count") ++
                (a5 ++ (pyStr (jGet [("arrival_time", Json.str "t")] "location") ++
                  (a6 ++ (pyStr (jGet [("arrival_time", Json.str "t")] "phone_number") ++
                    (a7 ++ user_link ⟨1, some "bob"⟩))))))))))))) ∧
    (step (fun k => k) ⟨1, some "bob"⟩
        ⟨Conversation.confirmation,
          ⟨some "en", some [⟨Role.system, "sys"⟩],
           some (Json.obj [("arrival_time", Json.str "t")])⟩⟩
        (Event.confirmBtn 4)).1 = initialSession ∧
    step (fun k => k) ⟨1, some "bob"⟩
      (step (fun k => k) ⟨1, some "bob"⟩
        ⟨Conversation.confirmation,
          ⟨some "en", some [⟨Role.system, "sys"⟩],
           some (Json.obj [("arrival_time", Json.str "t")])⟩⟩
        (Event.confirmBtn 4)).1 (Event.message "again" CompletionOutcome.timeout 9)
      = ((step (fun k => k) ⟨1, some "bob"⟩
        ⟨Conversation.confirmation,
          ⟨some "en", some [⟨Role.system, "sys"⟩],
           some (Json.obj [("arrival_time", Json.str "t")])⟩⟩
        (Event.confirmBtn 4)).1, []) ∧
    (step (fun k => k) ⟨1, some "bob"⟩
      (step (fun k => k) ⟨1, some "bob"⟩
        ⟨Conversation.confirmation,
          ⟨some "en", some [⟨Role.system, "sys"⟩],
           some (Json.obj [("arrival_time", Json.str "t")])⟩⟩
        (Event.confirmBtn 4)).1 Event.start).1
      = ⟨Conversation.waiting_for_language, ⟨Option.none, Option.none, Option.none⟩⟩ :=
  confirm_order_flow (fun k => k) ⟨1, some "bob"⟩
    ⟨Conversation.confirmation,
      ⟨some "en", some [⟨Role.system, "sys"⟩],
       some (Json.obj [("arrival_time", Json.str "t")])⟩⟩
    4 [("arrival_time", Json.str "t")] "again" CompletionOutcome.timeout 9 rfl rfl

/-- C9 counterexample: after a tool call whose name is not
`create_hookah_order`, the persisted history does NOT retain the
just-appended user turn — the handler never persists the locally mutated
history on the tool-call path, so the user's message is silently dropped
rather than left unanswered in `history`. -/
theorem unknown_tool_call_drops_user_turn :
    (step (fun k => k) ⟨7, Option.none⟩
        ⟨Conversation.active, ⟨some "en", some [⟨Role.system, "sys"⟩], Option.none⟩⟩
        (Event.message "hello" (CompletionOutcome.ok ⟨"",
          [⟨⟨"other_function", some (Json.obj [])⟩⟩]⟩) 2)).1.data.history
      = some [⟨Role.system, "sys"⟩] ∧
    (⟨Role.user, "hello (Reminder: reply in English only)"⟩ : Turn)
      ∉ ((step (fun k => k) ⟨7, Option.none⟩
        ⟨Conversation.active, ⟨some "en", some [⟨Role.system, "sys"⟩], Option.none⟩⟩
        (Event.message "hello" (CompletionOutcome.ok ⟨"",
          [⟨⟨"other_function", some (Json.obj [])⟩⟩]⟩) 2)).1.data.history.getD []) := by
  constructor
  · rfl
  · decide

/-- C9 amended: a tool call with an unrecognized function name leaves the
session entirely unchanged (no `order_details`, state stays Active, and the
locally appended user turn is never persisted, so the stored history is
unchanged — the message is dropped without reply or rollback); the only
outbound activity is the single completion call and the transient working
indicator being sent and then deleted. -/
theorem unknown_tool_call_noop (tr : String → String) (u : TgUser)
    (s : Session) (text content : String) (rest : List ToolCall)
    (thinkingId : Nat) (tc : ToolCall)
    (hact : s.fsm = Conversation.active)
    (hname : tc.function.name ≠ "create_hookah_order") :
    (step tr u s (Event.message text (CompletionOutcome.ok ⟨content, tc :: rest⟩) thinkingId)).1
      = s ∧
    (step tr u s (Event.message text (CompletionOutcome.ok ⟨content, tc :: rest⟩) thinkingId)).2
      = [Effect.send (tr "thinking_message"), Effect.completionCall,
         Effect.delMsg thinkingId] := by
  have hn : (tc.function.name == "create_hookah_order") = false :=
    beq_eq_false_iff_ne.mpr hname
  refine ⟨?_, ?_⟩ <;>
    simp [step, hact, handle_conversation, handle_tool_call, hn]

/-- Witness for C9 amended at a concrete unrecognized tool call. -/
theorem unknown_tool_call_noop_witness :
    (step (fun k => k) ⟨7, Option.none⟩
        ⟨Conversation.active, ⟨some "en", some [⟨Role.system, "sys"⟩], Option.none⟩⟩
        (Event.message "hello" (CompletionOutcome.ok ⟨"",
          [⟨⟨"other_function", some (Json.obj [])⟩⟩]⟩) 2)).1
      = ⟨Conversation.active, ⟨some "en", some [⟨Role.system, "sys"⟩], Option.none⟩⟩ ∧
    (step (fun k => k) ⟨7, Option.none⟩
        ⟨Conversation.active, ⟨some "en", some [⟨Role.system, "sys"⟩], Option.none⟩⟩
        (Event.message "hello" (CompletionOutcome.ok ⟨"",
          [⟨⟨"other_function", some (Json.obj [])⟩⟩]⟩) 2)).2
      = [Effect.send "thinking_message", Effect.completionCall, Effect.delMsg 2] :=
  unknown_tool_call_noop (fun k => k) ⟨7, Option.none⟩
    ⟨Conversation.active, ⟨some "en", some [⟨Role.system, "sys"⟩], Option.none⟩⟩
    "hello" "" [] 2 ⟨⟨"other_function", some (Json.obj [])⟩⟩ rfl (by decide)
